import Mathlib

/-!
Verification of the credential-acquisition and caching subsystem of
azure-aitoolsconnect.  The Rust sources under src/auth are shallowly
embedded: clock reads (`Utc::now()`, `Instant::now()`) become explicit
`now` parameters, network calls become oracle arguments, `DateTime<Utc>`
becomes an absolute timestamp in seconds (`Int`), `Instant` a second
count (`Nat`), and fallible code returns `Except`.
-/

/-- The variants of `AppError` (src/error/mod.rs) reachable from the
authentication subsystem. -/
inductive AppError where
  | Auth (msg : String)
  | Config (msg : String)
  | Network (msg : String)
  | DeviceCodeAuthFailed (msg : String)
  | ManagedIdentityNotAvailable (msg : String)
  | MissingTenantId
  | InvalidBearerToken (msg : String)
  deriving DecidableEq, Repr

/-- src/auth/token_cache.rs `CachedTokenEntry`: a single cached token
entry.  `expires_at : DateTime<Utc>` is modelled as seconds (`Int`). -/
structure CachedTokenEntry where
  access_token : String
  expires_at : Int
  scope : String
  tenant_id : String
  deriving DecidableEq, Repr

/-- `CachedTokenEntry::is_valid`: `Utc::now() + Duration::seconds(60) <
self.expires_at`.  The source reads the clock; here `now` is explicit. -/
def CachedTokenEntry.is_valid (e : CachedTokenEntry) (now : Int) : Bool :=
  now + 60 < e.expires_at

/-- `CachedTokenEntry::remaining_minutes`: whole minutes between `now`
and `expires_at` (`chrono::Duration::num_minutes` truncates towards
zero; for nonnegative remainders this is floored division by 60). -/
def CachedTokenEntry.remaining_minutes (e : CachedTokenEntry) (now : Int) : Int :=
  (e.expires_at - now) / 60

/-- src/auth/token_cache.rs `TokenCacheFile`: the on-disk token cache, a
vector of entries. -/
structure TokenCacheFile where
  tokens : List CachedTokenEntry
  deriving DecidableEq, Repr

/-- `TokenCacheFile::get_valid_token`: first entry matching scope,
tenant and validity (`Vec::iter().find`). -/
def TokenCacheFile.get_valid_token (c : TokenCacheFile) (scope tenant_id : String)
    (now : Int) : Option CachedTokenEntry :=
  c.tokens.find? fun t => t.scope == scope && t.tenant_id == tenant_id && t.is_valid now

/-- `TokenCacheFile::insert`: retain entries whose (scope, tenant) key
differs from the new entry's, then push the new entry. -/
def TokenCacheFile.insert (c : TokenCacheFile) (entry : CachedTokenEntry) :
    TokenCacheFile :=
  ⟨(c.tokens.filter fun t =>
      !(t.scope == entry.scope && t.tenant_id == entry.tenant_id)) ++ [entry]⟩

/-- `TokenCacheFile::load` pruning step: `tokens.retain(|t| t.is_valid())`. -/
def TokenCacheFile.prune (c : TokenCacheFile) (now : Int) : TokenCacheFile :=
  ⟨c.tokens.filter fun t => t.is_valid now⟩

/-- src/auth/managed_identity.rs `ManagedIdentityEndpoint`. -/
inductive ManagedIdentityEndpoint where
  | AppService (endpoint header : String)
  | VirtualMachine
  deriving DecidableEq, Repr

/-- The three environment variables read by
`ManagedIdentityAuth::detect_endpoint`; `env::var` success is modelled
as `some`. -/
structure MiEnv where
  identity_endpoint : Option String
  identity_header : Option String
  msi_endpoint : Option String
  deriving DecidableEq, Repr

/-- `ManagedIdentityAuth::detect_endpoint`: App Service when both
IDENTITY_ENDPOINT and IDENTITY_HEADER are set; otherwise the legacy
MSI_ENDPOINT check and the default both yield `VirtualMachine`.  The
Rust function returns `Result` but never errs, so it is total here. -/
def detect_endpoint (env : MiEnv) : ManagedIdentityEndpoint :=
  match env.identity_endpoint, env.identity_header with
  | some endpoint, some header => .AppService endpoint header
  | _, _ =>
    if env.msi_endpoint.isSome then ManagedIdentityEndpoint.VirtualMachine
    else ManagedIdentityEndpoint.VirtualMachine

namespace ListFacts

theorem filter_not_filter {α} (p : α → Bool) (l : List α) :
    (l.filter fun a => !(p a)).filter p = [] := by
  induction l with
  | nil => rfl
  | cons a t ih =>
    by_cases h : p a <;> simp [List.filter_cons, h, ih]

theorem length_filter_not_add {α} (p : α → Bool) (l : List α) :
    (l.filter fun a => !(p a)).length + (l.filter p).length = l.length := by
  induction l with
  | nil => rfl
  | cons a t ih =>
    by_cases h : p a <;> simp [List.filter_cons, h] <;> omega

theorem find_skip_unmatched {α} (q : α → Bool) (l1 l2 : List α)
    (h : ∀ a ∈ l1, q a = false) : (l1 ++ l2).find? q = l2.find? q := by
  induction l1 with
  | nil => rfl
  | cons a t ih =>
    have ha : q a = false := h a (by simp)
    simp only [List.cons_append, List.find?_cons, ha]
    exact ih fun b hb => h b (by simp [hb])

end ListFacts

/-- C2: `is_valid` is true iff `now + 60 < expires_at` (strict, buffer
fixed at 60 s); at `expires_at = now + 60` it is false, and from
`expires_at ≥ now + 61` it is true. -/
theorem cached_token_is_valid_iff_buffer (e : CachedTokenEntry) (now : Int) :
    (e.is_valid now = true ↔ now + 60 < e.expires_at)
    ∧ (e.expires_at = now + 60 → e.is_valid now = false)
    ∧ (now + 61 ≤ e.expires_at → e.is_valid now = true) := by
  refine ⟨?_, ?_, ?_⟩ <;> simp [CachedTokenEntry.is_valid] <;> omega

/-- Witness for C2 at the boundary: expiry exactly 60 s away is invalid,
61 s away is valid. -/
theorem cached_token_is_valid_iff_buffer_witness :
    CachedTokenEntry.is_valid ⟨"t", 60, "s", "id"⟩ 0 = false
    ∧ CachedTokenEntry.is_valid ⟨"t", 61, "s", "id"⟩ 0 = true :=
  ⟨(cached_token_is_valid_iff_buffer ⟨"t", 60, "s", "id"⟩ 0).2.1 (by decide),
   (cached_token_is_valid_iff_buffer ⟨"t", 61, "s", "id"⟩ 0).2.2 (by decide)⟩

/-- C5: `insert` leaves exactly one entry with the new entry's
(scope, tenant) key — the entry itself; when an entry with that key
already existed (under the at-most-one-live-entry-per-key invariant)
the total entry count is unchanged; and `get_valid_token` at that key
returns the inserted entry whenever it is valid. -/
theorem token_cache_insert_replaces (c : TokenCacheFile) (e : CachedTokenEntry)
    (now : Int)
    (hinv : (c.tokens.filter fun t =>
        t.scope == e.scope && t.tenant_id == e.tenant_id).length ≤ 1) :
    ((c.insert e).tokens.filter fun t =>
        t.scope == e.scope && t.tenant_id == e.tenant_id) = [e]
    ∧ ((∃ t ∈ c.tokens, (t.scope == e.scope && t.tenant_id == e.tenant_id) = true) →
        (c.insert e).tokens.length = c.tokens.length)
    ∧ (e.is_valid now = true →
        (c.insert e).get_valid_token e.scope e.tenant_id now = some e) := by
  set p : CachedTokenEntry → Bool :=
    fun t => t.scope == e.scope && t.tenant_id == e.tenant_id with hp
  refine ⟨?_, ?_, ?_⟩
  · show ((c.tokens.filter fun t => !(p t)) ++ [e]).filter p = [e]
    rw [List.filter_append, ListFacts.filter_not_filter]
    simp [hp]
  · intro hex
    have hone : (c.tokens.filter p).length = 1 := by
      obtain ⟨t, ht, hpt⟩ := hex
      have : t ∈ c.tokens.filter p := List.mem_filter.mpr ⟨ht, hpt⟩
      have : 0 < (c.tokens.filter p).length := List.length_pos.mpr (by
        intro hnil
        simp [hnil] at this)
      omega
    show ((c.tokens.filter fun t => !(p t)) ++ [e]).length = c.tokens.length
    have := ListFacts.length_filter_not_add p c.tokens
    simp only [List.length_append, List.length_cons, List.length_nil]
    omega
  · intro hvalid
    show (((c.tokens.filter fun t => !(p t)) ++ [e]).find? fun t =>
        t.scope == e.scope && t.tenant_id == e.tenant_id && t.is_valid now) = some e
    rw [ListFacts.find_skip_unmatched]
    · simp [hvalid]
    · intro a ha
      have hpa : (!(p a)) = true := (List.mem_filter.mp ha).2
      have : p a = false := by simpa using hpa
      rw [hp] at this
      rcases Bool.and_eq_false_iff.mp this with h | h <;> simp [h]

/-- Witness for C5: replacing the single entry for key ("s","id") keeps
the size at one and lookup returns the new entry. -/
theorem token_cache_insert_replaces_witness :
    ((TokenCacheFile.insert ⟨[⟨"old", 100, "s", "id"⟩]⟩ ⟨"new", 200, "s", "id"⟩).tokens.filter
        fun t => t.scope == "s" && t.tenant_id == "id") = [⟨"new", 200, "s", "id"⟩]
    ∧ (TokenCacheFile.insert ⟨[⟨"old", 100, "s", "id"⟩]⟩ ⟨"new", 200, "s", "id"⟩).tokens.length
        = (⟨[⟨"old", 100, "s", "id"⟩]⟩ : TokenCacheFile).tokens.length
    ∧ (TokenCacheFile.insert ⟨[⟨"old", 100, "s", "id"⟩]⟩ ⟨"new", 200, "s", "id"⟩).get_valid_token
        "s" "id" 0 = some ⟨"new", 200, "s", "id"⟩ := by
  have h := token_cache_insert_replaces ⟨[⟨"old", 100, "s", "id"⟩]⟩
      ⟨"new", 200, "s", "id"⟩ 0 (by decide)
  exact ⟨h.1, h.2.1 (by decide), h.2.2 (by decide)⟩

/-- C7: `detect_endpoint` selects the App Service variant exactly when
both IDENTITY_ENDPOINT and IDENTITY_HEADER are present (carrying those
values), and in every other environment — including one with only the
legacy MSI_ENDPOINT set — it selects the VM/metadata variant. -/
theorem detect_endpoint_app_service_iff (env : MiEnv) :
    (∀ ep hd, env.identity_endpoint = some ep → env.identity_header = some hd →
        detect_endpoint env = .AppService ep hd)
    ∧ (env.identity_endpoint = none ∨ env.identity_header = none →
        detect_endpoint env = .VirtualMachine) := by
  obtain ⟨ie, ih, me⟩ := env
  constructor
  · intro ep hd hep hhd
    cases hep; cases hhd
    rfl
  · intro h
    cases ie with
    | none => cases ih <;> simp [detect_endpoint]
    | some a =>
      cases ih with
      | none => simp [detect_endpoint]
      | some b => simp at h

/-- src/auth/device_code.rs `TokenResult`: token with metadata. -/
structure TokenResult where
  access_token : String
  expires_in_secs : Nat
  scope : String
  deriving DecidableEq, Repr

/-- The HTTP response `wait_for_callback` writes back to the browser:
status line code and HTML body. -/
structure HttpResponse where
  status : Nat
  body : String
  deriving DecidableEq, Repr

/-- Lookup in the `HashMap` collected from `url.query_pairs()`: for a
repeated key the later pair overwrites the earlier one. -/
def getParam (params : List (String × String)) (k : String) : Option String :=
  params.foldl (fun acc kv => if kv.1 == k then some kv.2 else acc) none

/-- The static success page of src/auth/interactive.rs. -/
def successPageBody : String :=
  "<html><body><h2>Authentication Successful!</h2><p>You can close this window and return to the terminal.</p></body></html>"

/-- The error page of src/auth/interactive.rs, with the callback's error
code and description interpolated. -/
def errorPageBody (error desc : String) : String :=
  "<html><body><h2>Authentication Failed</h2><p>" ++ error ++ ": " ++ desc
    ++ "</p><p>You can close this window.</p></body></html>"

/-- The CSRF mismatch message of `InteractiveAuth::fetch_token`
(reproduced byte-for-byte from the source, mojibake included). -/
def csrfMismatchMsg : String :=
  "CSRF state mismatch â€” possible security issue. Please try again."

/-- src/auth/interactive.rs `wait_for_callback`, after the request line
has been parsed into query pairs: returns the flow result (authorization
code and state, or an error) together with the HTTP response written to
the browser (`none` when the function returns before writing one, as on
a missing `code` or `state` parameter). -/
def wait_for_callback (params : List (String × String)) :
    Except AppError (String × String) × Option HttpResponse :=
  match getParam params "error" with
  | some error =>
    let desc := (getParam params "error_description").getD ""
    (.error (.Auth ("Authentication error: " ++ error ++ " - " ++ desc)),
     some ⟨400, errorPageBody error desc⟩)
  | none =>
    match getParam params "code" with
    | none => (.error (.Auth "No authorization code in callback"), none)
    | some code =>
      match getParam params "state" with
      | none => (.error (.Auth "No state parameter in callback"), none)
      | some state => (.ok (code, state), some ⟨200, successPageBody⟩)

/-- Outcome of one interactive authentication attempt: the result of
`fetch_token`, the HTTP response written to the browser, and whether the
token-exchange POST (`exchange_code`) was performed. -/
structure InteractiveOutcome where
  result : Except AppError TokenResult
  response : Option HttpResponse
  exchange_called : Bool
  deriving Repr

/-- `InteractiveAuth::fetch_token` from the callback onwards: the
generated CSRF token and the callback's query pairs are inputs, and the
network token exchange is an oracle.  Mirrors the source order: callback
errors propagate, then the state is compared to the CSRF token, and only
on equality is `exchange_code` invoked. -/
def fetch_token (csrf_state : String) (params : List (String × String))
    (exchange : String → Except AppError TokenResult) : InteractiveOutcome :=
  match wait_for_callback params with
  | (.error e, resp) => ⟨.error e, resp, false⟩
  | (.ok (code, received_state), resp) =>
    if received_state != csrf_state then
      ⟨.error (.Auth csrfMismatchMsg), resp, false⟩
    else
      ⟨exchange code, resp, true⟩

/-- C1: a callback whose `state` differs from the generated CSRF token
makes `fetch_token` (hence `authenticate`) fail with the CSRF
authentication error, and the token-exchange POST is never performed. -/
theorem interactive_csrf_mismatch_no_exchange (csrf : String)
    (params : List (String × String))
    (exchange : String → Except AppError TokenResult) (code s : String)
    (herr : getParam params "error" = none)
    (hcode : getParam params "code" = some code)
    (hstate : getParam params "state" = some s)
    (hne : s ≠ csrf) :
    (fetch_token csrf params exchange).result = .error (.Auth csrfMismatchMsg)
    ∧ (fetch_token csrf params exchange).exchange_called = false := by
  simp [fetch_token, wait_for_callback, herr, hcode, hstate, hne]

/-- Witness for C1: state "forged" against CSRF token "expected". -/
theorem interactive_csrf_mismatch_no_exchange_witness :
    (fetch_token "expected" [("code", "abc"), ("state", "forged")]
        (fun c => .ok ⟨c, 3600, "sc"⟩)).result = .error (.Auth csrfMismatchMsg)
    ∧ (fetch_token "expected" [("code", "abc"), ("state", "forged")]
        (fun c => .ok ⟨c, 3600, "sc"⟩)).exchange_called = false :=
  interactive_csrf_mismatch_no_exchange "expected" [("code", "abc"), ("state", "forged")]
    (fun c => .ok ⟨c, 3600, "sc"⟩) "abc" "forged" rfl rfl rfl (by decide)

/-- C8: a callback carrying an `error` parameter fails immediately with
an authentication error containing the code and description, performs no
token exchange, and the response written to the browser has status 400
(non-200). -/
theorem interactive_error_param_short_circuits (csrf : String)
    (params : List (String × String))
    (exchange : String → Except AppError TokenResult) (err : String)
    (herr : getParam params "error" = some err) :
    (fetch_token csrf params exchange).result
      = .error (.Auth ("Authentication error: " ++ err ++ " - "
          ++ ((getParam params "error_description").getD "")))
    ∧ (fetch_token csrf params exchange).exchange_called = false
    ∧ (fetch_token csrf params exchange).response
      = some ⟨400, errorPageBody err ((getParam params "error_description").getD "")⟩
    ∧ (∀ r, (fetch_token csrf params exchange).response = some r → r.status ≠ 200) := by
  refine ⟨?_, ?_, ?_, ?_⟩ <;>
    simp [fetch_token, wait_for_callback, herr]

/-- Witness for C8 at a concrete denied callback. -/
theorem interactive_error_param_short_circuits_witness :
    (fetch_token "st" [("error", "access_denied"), ("error_description", "denied")]
        (fun c => .ok ⟨c, 3600, "sc"⟩)).result
      = .error (.Auth ("Authentication error: " ++ "access_denied" ++ " - " ++ "denied"))
    ∧ (fetch_token "st" [("error", "access_denied"), ("error_description", "denied")]
        (fun c => .ok ⟨c, 3600, "sc"⟩)).exchange_called = false := by
  have h := interactive_error_param_short_circuits "st"
    [("error", "access_denied"), ("error_description", "denied")]
    (fun c => .ok ⟨c, 3600, "sc"⟩) "access_denied" rfl
  exact ⟨h.1, h.2.1⟩

/-- C10: on a callback carrying `code` and `state` and no `error`, the
200 success page is produced by `wait_for_callback` itself — before and
independently of the CSRF comparison — so even a mismatched state
receives the success page while `fetch_token` fails with the CSRF
error. -/
theorem interactive_success_page_despite_csrf_mismatch (csrf : String)
    (params : List (String × String))
    (exchange : String → Except AppError TokenResult) (code s : String)
    (herr : getParam params "error" = none)
    (hcode : getParam params "code" = some code)
    (hstate : getParam params "state" = some s) :
    (wait_for_callback params) = (.ok (code, s), some ⟨200, successPageBody⟩)
    ∧ (fetch_token csrf params exchange).response = some ⟨200, successPageBody⟩
    ∧ (s ≠ csrf →
        (fetch_token csrf params exchange).result = .error (.Auth csrfMismatchMsg)) := by
  have hw : wait_for_callback params = (.ok (code, s), some ⟨200, successPageBody⟩) := by
    simp [wait_for_callback, herr, hcode, hstate]
  refine ⟨hw, ?_, ?_⟩
  · by_cases hne : s = csrf <;> simp [fetch_token, hw, hne]
  · intro hne
    simp [fetch_token, hw, hne]

/-- Witness for C10: a forged state still gets the 200 page. -/
theorem interactive_success_page_despite_csrf_mismatch_witness :
    (fetch_token "expected" [("code", "abc"), ("state", "forged")]
        (fun c => .ok ⟨c, 3600, "sc"⟩)).response = some ⟨200, successPageBody⟩
    ∧ (fetch_token "expected" [("code", "abc"), ("state", "forged")]
        (fun c => .ok ⟨c, 3600, "sc"⟩)).result = .error (.Auth csrfMismatchMsg) := by
  have h := interactive_success_page_despite_csrf_mismatch "expected"
    [("code", "abc"), ("state", "forged")] (fun c => .ok ⟨c, 3600, "sc"⟩)
    "abc" "forged" rfl rfl rfl
  exact ⟨h.2.1, h.2.2 (by decide)⟩

/-- Witness for C7: both variables set resolves to App Service; with
only the legacy MSI_ENDPOINT set it resolves to VirtualMachine. -/
theorem detect_endpoint_app_service_iff_witness :
    detect_endpoint ⟨some "http://ep", some "hdr", none⟩ = .AppService "http://ep" "hdr"
    ∧ detect_endpoint ⟨none, none, some "http://msi"⟩ = .VirtualMachine :=
  ⟨(detect_endpoint_app_service_iff ⟨some "http://ep", some "hdr", none⟩).1
      "http://ep" "hdr" rfl rfl,
   (detect_endpoint_app_service_iff ⟨none, none, some "http://msi"⟩).2 (Or.inl rfl)⟩

/-- One response of the device-code token endpoint, as classified by
`DeviceCodeAuth::poll_for_token` (src/auth/device_code.rs): success,
the RFC 8628 error codes, any other server error, or a transport
error. -/
inductive PollResponse where
  | success (access_token : String) (expires_in_secs : Nat)
  | authorizationPending
  | slowDown
  | expiredToken
  | accessDenied
  | otherServer (msg : String)
  | requestFailed (msg : String)
  deriving DecidableEq, Repr

/-- Outcome of the polling loop: a token, a terminal failure, or the
scripted responses ran out before the loop finished. -/
inductive PollOutcome where
  | token (access_token : String) (expires_in_secs : Nat)
  | failure (e : AppError)
  | outOfScript
  deriving DecidableEq, Repr

/-- The polling loop of `DeviceCodeAuth::poll_for_token`, over a script
of token-endpoint responses.  Each iteration first checks the session
deadline (`start.elapsed() > timeout`), then sleeps `interval`, then
polls; `slow_down` sleeps one additional `interval` before continuing.
Elapsed time is the accumulated sleep time (network time is zero in the
model); alongside the outcome the list of performed sleep durations is
returned. -/
def pollLoop (interval timeout : Nat) (elapsed : Nat) :
    List PollResponse → PollOutcome × List Nat
  | [] =>
    if elapsed > timeout then
      (.failure (.DeviceCodeAuthFailed "Authentication timed out. Please try again."), [])
    else
      (.outOfScript, [])
  | r :: rest =>
    if elapsed > timeout then
      (.failure (.DeviceCodeAuthFailed "Authentication timed out. Please try again."), [])
    else
      match r with
      | .success tok exp => (.token tok exp, [interval])
      | .authorizationPending =>
        let next := pollLoop interval timeout (elapsed + interval) rest
        (next.1, interval :: next.2)
      | .slowDown =>
        let next := pollLoop interval timeout (elapsed + interval + interval) rest
        (next.1, interval :: interval :: next.2)
      | .expiredToken =>
        (.failure (.DeviceCodeAuthFailed "Device code expired. Please try again."), [interval])
      | .accessDenied =>
        (.failure (.DeviceCodeAuthFailed "User declined authorization"), [interval])
      | .otherServer msg =>
        (.failure (.DeviceCodeAuthFailed ("Server error: " ++ msg)), [interval])
      | .requestFailed msg =>
        (.failure (.DeviceCodeAuthFailed ("Network error during token request: " ++ msg)), [interval])

/-- The session deadline of `poll_for_token`: the server-provided
`expires_in`, with a zero/absent value replaced by 15 minutes. -/
def sessionTimeout (expires_in_secs : Nat) : Nat :=
  if expires_in_secs = 0 then 15 * 60 else expires_in_secs

/-- `DeviceCodeAuth::poll_for_token`: run the loop from zero elapsed
time under the session deadline derived from `expires_in`. -/
def poll_for_token (interval expires_in_secs : Nat) (rs : List PollResponse) :
    PollOutcome × List Nat :=
  pollLoop interval (sessionTimeout expires_in_secs) 0 rs

/-- Number of `slow_down` responses in a script. -/
def slowCount (rs : List PollResponse) : Nat :=
  (rs.filter fun r => r == PollResponse.slowDown).length

namespace PollFacts

theorem slowCount_cons_pending (rs : List PollResponse) :
    slowCount (.authorizationPending :: rs) = slowCount rs := by
  simp [slowCount, List.filter_cons]

theorem slowCount_cons_slow (rs : List PollResponse) :
    slowCount (.slowDown :: rs) = slowCount rs + 1 := by
  simp [slowCount, List.filter_cons]

theorem pollLoop_pending_slow_success (interval timeout : Nat)
    (tok : String) (exp : Nat) :
    ∀ (script : List PollResponse) (elapsed : Nat),
      (∀ r ∈ script, r = .authorizationPending ∨ r = .slowDown) →
      elapsed + interval * (script.length + slowCount script) ≤ timeout →
      pollLoop interval timeout elapsed (script ++ [.success tok exp]) =
        (.token tok exp,
         List.replicate (script.length + slowCount script + 1) interval) := by
  intro script
  induction script with
  | nil =>
    intro elapsed _ hto
    simp [slowCount] at hto
    simp [pollLoop, Nat.not_lt.mpr hto, slowCount, List.replicate]
  | cons r rest ih =>
    intro elapsed hall hto
    have hr := hall r (by simp)
    have hrest : ∀ x ∈ rest, x = PollResponse.authorizationPending ∨ x = PollResponse.slowDown :=
      fun x hx => hall x (by simp [hx])
    have hnotover : ¬ elapsed > timeout := by
      have : 0 ≤ interval * ((r :: rest).length + slowCount (r :: rest)) := Nat.zero_le _
      omega
    rcases hr with hr | hr
    · subst hr
      have hcount : (PollResponse.authorizationPending :: rest).length
          + slowCount (.authorizationPending :: rest)
          = (rest.length + slowCount rest) + 1 := by
        simp [slowCount_cons_pending]
        omega
      have hto2 : (elapsed + interval) + interval * (rest.length + slowCount rest) ≤ timeout := by
        rw [hcount, Nat.mul_add, Nat.mul_one] at hto
        omega
      have := ih (elapsed + interval) hrest hto2
      have hcnt1 : (PollResponse.authorizationPending :: rest).length
          + slowCount (.authorizationPending :: rest) + 1
          = (rest.length + slowCount rest + 1) + 1 := by
        rw [hcount]
      rw [hcnt1, List.replicate_succ]
      simp [pollLoop, hnotover, this]
    · subst hr
      have hcount : (PollResponse.slowDown :: rest).length
          + slowCount (.slowDown :: rest)
          = (rest.length + slowCount rest) + 2 := by
        simp [slowCount_cons_slow]
        omega
      have hto2 : (elapsed + interval + interval) + interval * (rest.length + slowCount rest) ≤ timeout := by
        rw [hcount, Nat.mul_add] at hto
        omega
      have := ih (elapsed + interval + interval) hrest hto2
      have hcnt1 : (PollResponse.slowDown :: rest).length
          + slowCount (.slowDown :: rest) + 1
          = ((rest.length + slowCount rest + 1) + 1) + 1 := by
        rw [hcount]
      rw [hcnt1, List.replicate_succ, List.replicate_succ]
      simp [pollLoop, hnotover, this]

theorem pollLoop_times_out (interval timeout : Nat) :
    ∀ (rs : List PollResponse) (elapsed : Nat),
      (∀ r ∈ rs, r = .authorizationPending ∨ r = .slowDown) →
      timeout < elapsed + interval * rs.length →
      (pollLoop interval timeout elapsed rs).1
        = .failure (.DeviceCodeAuthFailed "Authentication timed out. Please try again.") := by
  intro rs
  induction rs with
  | nil =>
    intro elapsed _ hto
    simp at hto
    simp [pollLoop, hto]
  | cons r rest ih =>
    intro elapsed hall hto
    by_cases hover : elapsed > timeout
    · cases r <;> simp [pollLoop, hover]
    · have hr := hall r (by simp)
      have hrest : ∀ x ∈ rest, x = PollResponse.authorizationPending ∨ x = PollResponse.slowDown :=
        fun x hx => hall x (by simp [hx])
      have hmul : interval * (r :: rest).length = interval + interval * rest.length := by
        simp [List.length_cons, Nat.mul_add, Nat.mul_one]
        omega
      rcases hr with hr | hr
      · subst hr
        have := ih (elapsed + interval) hrest (by omega)
        simp [pollLoop, hover, this]
      · subst hr
        have := ih (elapsed + interval + interval) hrest (by omega)
        simp [pollLoop, hover, this]

end PollFacts

/-- C3: over any run of `authorization_pending`/`slow_down` responses
ending in success (within the deadline), every sleep is the unchanged
server-provided `interval`, and the number of sleeps is the number of
poll attempts plus exactly one extra per `slow_down` occurrence —
`authorization_pending` adds none, `slow_down` adds exactly one, so two
interval-sleeps separate a `slow_down` poll from the next poll. -/
theorem device_code_slow_down_single_extra_sleep (interval timeout : Nat)
    (script : List PollResponse) (tok : String) (exp : Nat)
    (hall : ∀ r ∈ script, r = .authorizationPending ∨ r = .slowDown)
    (hto : interval * (script.length + slowCount script) ≤ timeout) :
    pollLoop interval timeout 0 (script ++ [.success tok exp]) =
      (.token tok exp,
       List.replicate (script.length + slowCount script + 1) interval) :=
  PollFacts.pollLoop_pending_slow_success interval timeout tok exp script 0 hall
    (by simpa using hto)

/-- Witness for C3: [pending, pending, slow_down, success] with
interval 2 yields 3 + 1 + 1 = 5 sleeps of 2 each. -/
theorem device_code_slow_down_single_extra_sleep_witness :
    pollLoop 2 100 0
        [.authorizationPending, .authorizationPending, .slowDown, .success "tk" 3600] =
      (.token "tk" 3600, List.replicate 5 2) :=
  device_code_slow_down_single_extra_sleep 2 100
    [.authorizationPending, .authorizationPending, .slowDown] "tk" 3600
    (by decide) (by decide)

/-- C4: the polling session deadline is the server-provided `expires_in`
(15 minutes when absent, encoded as zero), and a run of non-success
responses outlasting the deadline ends in the timeout authentication
error — never a token. -/
theorem device_code_session_deadline (interval expires_in_secs : Nat)
    (rs : List PollResponse)
    (hall : ∀ r ∈ rs, r = .authorizationPending ∨ r = .slowDown)
    (hlong : sessionTimeout expires_in_secs < interval * rs.length) :
    sessionTimeout 0 = 15 * 60
    ∧ (expires_in_secs ≠ 0 → sessionTimeout expires_in_secs = expires_in_secs)
    ∧ (poll_for_token interval expires_in_secs rs).1
        = .failure (.DeviceCodeAuthFailed "Authentication timed out. Please try again.")
    ∧ (∀ tok exp, (poll_for_token interval expires_in_secs rs).1 ≠ .token tok exp) := by
  have hfail := PollFacts.pollLoop_times_out interval (sessionTimeout expires_in_secs)
    rs 0 hall (by simpa using hlong)
  refine ⟨rfl, ?_, hfail, ?_⟩
  · intro h
    simp [sessionTimeout, h]
  · intro tok exp
    show (pollLoop interval (sessionTimeout expires_in_secs) 0 rs).1 ≠ _
    rw [hfail]
    simp

/-- Witness for C4: expires_in = 5 s, interval = 3 s, two pending
responses exceed the deadline and yield the timeout error. -/
theorem device_code_session_deadline_witness :
    (poll_for_token 3 5 [.authorizationPending, .authorizationPending]).1
        = .failure (.DeviceCodeAuthFailed "Authentication timed out. Please try again.")
    ∧ sessionTimeout 5 = 5 := by
  have h := device_code_session_deadline 3 5 [.authorizationPending, .authorizationPending]
    (by decide) (by decide)
  exact ⟨h.2.2.1, h.2.1 (by decide)⟩

/-- src/auth/mod.rs `CachedToken`: in-memory cached token; `Instant` is
modelled as seconds (`Nat`). -/
structure CachedToken where
  token : String
  expires_at : Nat
  deriving DecidableEq, Repr

/-- `CachedToken::is_expired`: `Instant::now() + buffer ≥ expires_at`. -/
def CachedToken.is_expired (c : CachedToken) (buffer_secs now : Nat) : Bool :=
  now + buffer_secs ≥ c.expires_at

/-- `TOKEN_EXPIRY_BUFFER_SECS` of src/auth/mod.rs. -/
def TOKEN_EXPIRY_BUFFER_SECS : Nat := 60

/-- `COGNITIVE_TOKEN_LIFETIME_SECS` of src/auth/mod.rs. -/
def COGNITIVE_TOKEN_LIFETIME_SECS : Nat := 540

/-- src/auth/mod.rs `TokenCache`: the one-slot in-memory cache.  The
`RwLock` disappears under sequential modelling; the slot is explicit
state. -/
structure MemTokenCache where
  cached : Option CachedToken
  buffer_secs : Nat
  deriving DecidableEq, Repr

/-- `TokenCache::get`: the cached token, only while unexpired. -/
def MemTokenCache.get (tc : MemTokenCache) (now : Nat) : Option String :=
  match tc.cached with
  | some c => if !(c.is_expired tc.buffer_secs now) then some c.token else none
  | none => none

/-- `TokenCache::set`: unconditionally replace the slot. -/
def MemTokenCache.set (tc : MemTokenCache) (token : String)
    (expires_in_secs now : Nat) : MemTokenCache :=
  { tc with cached := some ⟨token, now + expires_in_secs⟩ }

/-- src/auth/mod.rs `Credentials`. -/
inductive Credentials where
  | ApiKey (key : String)
  | BearerToken (token : String)
  deriving DecidableEq, Repr

/-- `EntraTokenAuth::get_credentials` with the cache slot as explicit
state and the network fetch (`fetch_token`) as an oracle value: cache
hit returns the cached token; otherwise a failed fetch propagates the
error and only a successful fetch updates the slot. -/
def entra_get_credentials (cache : MemTokenCache) (now : Nat)
    (fetch : Except AppError (String × Nat)) :
    Except AppError Credentials × MemTokenCache :=
  match cache.get now with
  | some token => (.ok (.BearerToken token), cache)
  | none =>
    match fetch with
    | .error e => (.error e, cache)
    | .ok (token, expires_in) =>
      (.ok (.BearerToken token), cache.set token expires_in now)

/-- `CognitiveTokenAuth::exchange_token`, same shape: the successful
response body is cached for `COGNITIVE_TOKEN_LIFETIME_SECS`. -/
def cognitive_exchange_token (cache : MemTokenCache) (now : Nat)
    (fetch : Except AppError String) :
    Except AppError String × MemTokenCache :=
  match cache.get now with
  | some token => (.ok token, cache)
  | none =>
    match fetch with
    | .error e => (.error e, cache)
    | .ok token =>
      (.ok token, cache.set token COGNITIVE_TOKEN_LIFETIME_SECS now)

/-- C6: when the token fetch fails, both `EntraTokenAuth::get_credentials`
and `CognitiveTokenAuth::exchange_token` leave the in-memory cache slot
exactly as it was, and a still-valid cached entry is still returned. -/
theorem failed_fetch_preserves_cache (cache : MemTokenCache) (now : Nat)
    (e : AppError) :
    (entra_get_credentials cache now (.error e)).2 = cache
    ∧ (cognitive_exchange_token cache now (.error e)).2 = cache
    ∧ (∀ tok, cache.get now = some tok →
        (entra_get_credentials cache now (.error e)).1 = .ok (.BearerToken tok)
        ∧ (cognitive_exchange_token cache now (.error e)).1 = .ok tok) := by
  unfold entra_get_credentials cognitive_exchange_token
  cases h : cache.get now <;> simp

/-- Witness for C6: a failed fetch against a cache holding a valid
token leaves the slot untouched and the token returnable. -/
theorem failed_fetch_preserves_cache_witness :
    (entra_get_credentials ⟨some ⟨"tok", 1000⟩, 60⟩ 0 (.error (.Network "down"))).2
      = ⟨some ⟨"tok", 1000⟩, 60⟩
    ∧ (entra_get_credentials ⟨some ⟨"tok", 1000⟩, 60⟩ 0 (.error (.Network "down"))).1
      = .ok (.BearerToken "tok")
    ∧ (cognitive_exchange_token ⟨some ⟨"tok", 1000⟩, 60⟩ 0 (.error (.Network "down"))).1
      = .ok "tok" := by
  have h := failed_fetch_preserves_cache ⟨some ⟨"tok", 1000⟩, 60⟩ 0 (.Network "down")
  have hget : (⟨some ⟨"tok", 1000⟩, 60⟩ : MemTokenCache).get 0 = some "tok" := by decide
  exact ⟨h.1, (h.2.2 "tok" hget).1, (h.2.2 "tok" hget).2⟩

/-- src/config/mod.rs `AuthMethod`. -/
inductive AuthMethod where
  | Key
  | Token
  | Both
  | DeviceCode
  | ManagedIdentity
  | ManualToken
  deriving DecidableEq, Repr

/-- src/config/mod.rs `EntraConfig`. -/
structure EntraConfig where
  tenant_id : Option String
  client_id : Option String
  client_secret : Option String
  deriving DecidableEq, Repr

/-- src/config/mod.rs `UserAuthConfig`. -/
structure UserAuthConfig where
  tenant_id : Option String
  client_id : Option String
  managed_identity_client_id : Option String
  bearer_token : Option String
  deriving DecidableEq, Repr

/-- A constructed provider, identified by its kind and configuration
(behaviour is modelled elsewhere; `AuthManager` only stores and
enumerates them). -/
inductive ProviderRef where
  | apiKey (key : String)
  | entra (tenant_id client_id client_secret : String)
  | manualToken (token : String)
  | managedIdentity (user_assigned_client_id : Option String)
  | deviceCode (tenant_id : String) (client_id : Option String)
  deriving DecidableEq, Repr

/-- src/auth/mod.rs `AuthManager`: the optional constructed providers
plus the configured default method. -/
structure AuthManager where
  api_key : Option String
  entra : Option (String × String × String)
  manual_token : Option String
  managed_identity : Option (Option String)
  device_code : Option (String × Option String)
  default_method : AuthMethod
  deriving DecidableEq, Repr

/-- Modelled from the spec: `ManualTokenAuth::new` (src/auth/manual_token.rs
is declared in src/auth/mod.rs but absent from the sources).  Per the
spec's provider list it is a static provider holding the supplied
bearer token; per the error taxonomy an empty token is rejected with
`InvalidBearerToken`. -/
def manualTokenNew (token : String) : Except AppError String :=
  if token.isEmpty then
    .error (.InvalidBearerToken "Bearer token cannot be empty")
  else
    .ok token

/-- The Entra provider construction of `AuthManager::new_with_options`:
built only when tenant, client and secret are all present. -/
def buildEntra (entra_config : Option EntraConfig) :
    Option (String × String × String) :=
  match entra_config with
  | some config =>
    match config.tenant_id, config.client_id, config.client_secret with
    | some t, some c, some s => some (t, c, s)
    | _, _, _ => none
  | none => none

/-- Manual-token provider construction: built when a bearer token is
provided, propagating `ManualTokenAuth::new` failures. -/
def buildManualToken (user_config : Option UserAuthConfig) :
    Except AppError (Option String) :=
  match user_config with
  | some config =>
    match config.bearer_token with
    | some token =>
      match manualTokenNew token with
      | .ok t => .ok (some t)
      | .error e => .error e
    | none => .ok none
  | none => .ok none

/-- Managed-identity provider construction: built exactly when the
default method is `ManagedIdentity` (`ManagedIdentityAuth::new` cannot
fail in the model: `detect_endpoint` is total). -/
def buildManagedIdentity (default_method : AuthMethod)
    (user_config : Option UserAuthConfig) : Option (Option String) :=
  if default_method = AuthMethod.ManagedIdentity then
    some (match user_config with
          | some c => c.managed_identity_client_id
          | none => none)
  else none

/-- Device-code provider construction: built exactly when the default
method is `DeviceCode`, requiring a tenant id (`MissingTenantId`
otherwise). -/
def buildDeviceCode (default_method : AuthMethod)
    (user_config : Option UserAuthConfig) :
    Except AppError (Option (String × Option String)) :=
  if default_method = AuthMethod.DeviceCode then
    match (match user_config with
           | some c => c.tenant_id
           | none => none) with
    | some tenant_id =>
      .ok (some (tenant_id, match user_config with
                            | some c => c.client_id
                            | none => none))
    | none => .error .MissingTenantId
  else .ok none

/-- src/auth/mod.rs `AuthManager::new_with_options` (the `quiet` flag
only configures progress output and is dropped). -/
def AuthManager.new_with_options (api_key : Option String)
    (entra_config : Option EntraConfig) (user_config : Option UserAuthConfig)
    (default_method : AuthMethod) : Except AppError AuthManager :=
  match buildManualToken user_config with
  | .error e => .error e
  | .ok manual =>
    match buildDeviceCode default_method user_config with
    | .error e => .error e
    | .ok device =>
      .ok ⟨api_key, buildEntra entra_config, manual,
           buildManagedIdentity default_method user_config, device, default_method⟩

/-- src/auth/mod.rs `AuthManager::get_all_providers`: push the API-key
provider if present, then the Entra provider if present — and nothing
else. -/
def AuthManager.get_all_providers (m : AuthManager) : List ProviderRef :=
  (match m.api_key with
   | some k => [ProviderRef.apiKey k]
   | none => []) ++
  (match m.entra with
   | some (t, c, s) => [ProviderRef.entra t c s]
   | none => [])

/-- A successful `new_with_options` carries over the API key and the
Entra construction unchanged, whatever the default method. -/
theorem new_with_options_api_entra (api_key : Option String)
    (entra_config : Option EntraConfig) (user_config : Option UserAuthConfig)
    (method : AuthMethod) (m : AuthManager)
    (h : AuthManager.new_with_options api_key entra_config user_config method = .ok m) :
    m.api_key = api_key ∧ m.entra = buildEntra entra_config := by
  unfold AuthManager.new_with_options at h
  cases hm : buildManualToken user_config with
  | error e => rw [hm] at h; simp at h
  | ok manual =>
    rw [hm] at h
    cases hd : buildDeviceCode method user_config with
    | error e => rw [hd] at h; simp at h
    | ok device =>
      rw [hd] at h
      injection h with h1
      subst h1
      exact ⟨rfl, rfl⟩

/-- C9 counterexample: with default method `DeviceCode` and a tenant id
configured, construction succeeds and the device-code provider is built,
yet `get_all_providers` returns the empty list — the constructed
device-code provider does not appear. -/
theorem get_all_providers_omits_constructed_device_code :
    AuthManager.new_with_options none none
        (some ⟨some "tenant", none, none, none⟩) AuthMethod.DeviceCode
      = .ok ⟨none, none, none, none, some ("tenant", none), .DeviceCode⟩
    ∧ (⟨none, none, none, none, some ("tenant", none), .DeviceCode⟩ :
        AuthManager).device_code = some ("tenant", none)
    ∧ (⟨none, none, none, none, some ("tenant", none), .DeviceCode⟩ :
        AuthManager).get_all_providers = [] :=
  ⟨rfl, rfl, rfl⟩

/-- C9 (amended): `get_all_providers` returns exactly the constructed
API-key and client-credentials (Entra) providers — each appears when
constructed, nothing else ever appears, and the list is independent of
the active default method; the manual-token, managed-identity and
device-code providers are never included. -/
theorem get_all_providers_exactly_key_entra (api_key : Option String)
    (entra_config : Option EntraConfig) (user_config : Option UserAuthConfig)
    (method : AuthMethod) (m : AuthManager)
    (h : AuthManager.new_with_options api_key entra_config user_config method = .ok m) :
    (∀ k, m.api_key = some k → ProviderRef.apiKey k ∈ m.get_all_providers)
    ∧ (∀ t c s, m.entra = some (t, c, s) → ProviderRef.entra t c s ∈ m.get_all_providers)
    ∧ (∀ p ∈ m.get_all_providers,
        (∃ k, m.api_key = some k ∧ p = .apiKey k)
        ∨ (∃ t c s, m.entra = some (t, c, s) ∧ p = .entra t c s))
    ∧ (∀ method2 m2,
        AuthManager.new_with_options api_key entra_config user_config method2 = .ok m2 →
        m2.get_all_providers = m.get_all_providers) := by
  obtain ⟨hak, hen⟩ := new_with_options_api_entra _ _ _ _ _ h
  refine ⟨?_, ?_, ?_, ?_⟩
  · intro k hk
    simp [AuthManager.get_all_providers, hk]
  · intro t c s hcs
    simp [AuthManager.get_all_providers, hcs]
  · intro p hp
    unfold AuthManager.get_all_providers at hp
    cases hA : m.api_key with
    | some k =>
      cases hE : m.entra with
      | some tcs =>
        obtain ⟨t, c, s⟩ := tcs
        rw [hA, hE] at hp
        simp at hp
        rcases hp with hp | hp
        · exact Or.inl ⟨k, rfl, hp⟩
        · exact Or.inr ⟨t, c, s, rfl, hp⟩
      | none =>
        rw [hA, hE] at hp
        simp at hp
        exact Or.inl ⟨k, rfl, hp⟩
    | none =>
      cases hE : m.entra with
      | some tcs =>
        obtain ⟨t, c, s⟩ := tcs
        rw [hA, hE] at hp
        simp at hp
        exact Or.inr ⟨t, c, s, rfl, hp⟩
      | none =>
        rw [hA, hE] at hp
        simp at hp
  · intro method2 m2 h2
    obtain ⟨hak2, hen2⟩ := new_with_options_api_entra _ _ _ _ _ h2
    unfold AuthManager.get_all_providers
    rw [hak, hen, hak2, hen2]

/-- Witness for the amended C9: with both an API key and a full Entra
configuration, both providers appear in the enumeration. -/
theorem get_all_providers_exactly_key_entra_witness :
    ProviderRef.apiKey "k" ∈
      (AuthManager.mk (some "k") (some ("t", "c", "s")) none none none .Key).get_all_providers
    ∧ ProviderRef.entra "t" "c" "s" ∈
      (AuthManager.mk (some "k") (some ("t", "c", "s")) none none none .Key).get_all_providers := by
  have h := get_all_providers_exactly_key_entra (some "k")
    (some ⟨some "t", some "c", some "s"⟩) none AuthMethod.Key
    ⟨some "k", some ("t", "c", "s"), none, none, none, .Key⟩ rfl
  exact ⟨h.1 "k" rfl, h.2.1 "t" "c" "s" rfl⟩
